import Mathlib

/-!
Verification of the per-buffer coherence tracker of `src/shared_memory.rs`
(`SharedMemory<T>`): device registration, copy lookup and the
acquire/synchronize/return protocol, together with its error taxonomy.

The embedding follows the Rust source line by line.  Rust's `LinearMap` is
modelled as an association list with unique keys (`lmGet`, `lmInsert`,
`lmRemove` mirror `LinearMap::get/insert/remove`).  The backend allocation
and transfer primitives live outside `src/` (they are declared external
collaborators), so they are a parameter (`Backend`), modelled from the
spec's capability contract.  Mutation of `&mut self` is explicit state
passing: each operation returns the updated `SharedMemory` next to its
result.  The Rust `unimplemented` panic is a distinct `Outcome.panicked`
result, and the operation count of backend transfer invocations is
returned alongside, so that "never invokes the transfer contract" is
directly statable.
-/

namespace Collenchyma

/-- Device identity: one variant per backend kind, with a numeric id
standing for the concrete `Native`/`OpenCL` device value.  Mirrors
`DeviceType` from `device.rs` as used by `shared_memory.rs` (the `cuda`
feature is off). -/
inductive DeviceType where
  | native (id : Nat)
  | opencl (id : Nat)
deriving DecidableEq

/-- Backend-tagged memory copy.  A native copy (`FlatBox`) carries its
bytes; an OpenCL copy is an opaque handle of which only the allocated
byte size is tracked.  Mirrors `MemoryType` from `memory.rs`. -/
inductive MemoryType where
  | native (bytes : List Nat)
  | opencl (size : Nat)
deriving DecidableEq

/-- Byte size of a memory copy. -/
def MemoryType.byte_size : MemoryType → Nat
  | .native bytes => bytes.length
  | .opencl size => size

/-- The error enum of `shared_memory.rs`.  The two wrapped framework
errors drop their `device::Error` payload (that type is outside `src/`). -/
inductive Error where
  | MissingSource (msg : String)
  | MissingDestination (msg : String)
  | InvalidMemory (msg : String)
  | InvalidMemoryAllocation (msg : String)
  | MemoryAllocationError
  | MemorySynchronizationError
deriving DecidableEq

/-- Result of an operation that may also diverge by panicking (the Rust
`unimplemented` panic in `sync_from_to`). -/
inductive Outcome (α : Type) where
  | ok (a : α)
  | err (e : Error)
  | panicked (msg : String)
deriving DecidableEq

def msg_missing_source : String := "SharedMemory does not hold a copy on source device."

def msg_missing_destination : String := "SharedMemory does not hold a copy on destination device."

def msg_invalid_native : String := "Expected Native Memory (FlatBox)"

def msg_double_alloc : String := "SharedMemory already tracks memory for this device. No memory allocation."

def msg_unimplemented : String := "not implemented"

/-- Model of `linear_map::LinearMap<DeviceType, MemoryType>`: an
association list with unique keys. -/
abbrev LinMap := List (DeviceType × MemoryType)

/-- Mirrors `LinearMap::get`. -/
def lmGet : LinMap → DeviceType → Option MemoryType
  | [], _ => none
  | (k, v) :: rest, key => if k = key then some v else lmGet rest key

/-- Mirrors `LinearMap::insert`: replaces the value in place if the key is
present, appends otherwise. -/
def lmInsert : LinMap → DeviceType → MemoryType → LinMap
  | [], key, v => [(key, v)]
  | (k, v') :: rest, key, v =>
      if k = key then (key, v) :: rest else (k, v') :: lmInsert rest key v

/-- Mirrors `LinearMap::remove`: returns the removed value (if any)
together with the map after removal. -/
def lmRemove : LinMap → DeviceType → Option MemoryType × LinMap
  | [], _ => (none, [])
  | (k, v) :: rest, key =>
      if k = key then (some v, rest)
      else
        let r := lmRemove rest key
        (r.1, (k, v) :: r.2)

/-- Modelled from the spec: the device capability contract (§2, §6),
`allocate(byte_size) -> MemoryCopy | AllocationFailure` per backend kind
and `transfer_in(source_device, &source_copy, &mut dest_copy)` for the
native backend (`cpu.sync_in` in the source).  The concrete
implementations live in `frameworks/`, outside `src/`; `none` models the
backend-reported failure. -/
structure Backend where
  allocNative : Nat → Nat → Option (List Nat)
  allocOpenCL : Nat → Nat → Option Nat
  syncInNative : Nat → DeviceType → MemoryType → List Nat → Option (List Nat)

/-- Modelled from the spec: a backend honouring the allocation contract
returns a copy of exactly the requested byte size. -/
def Backend.honest (b : Backend) : Prop :=
  (∀ id sz l, b.allocNative id sz = some l → l.length = sz) ∧
  (∀ id sz n, b.allocOpenCL id sz = some n → n = sz)

/-- The tracker state (`struct SharedMemory<T>`).  `PhantomData<T>` has no
runtime content beyond `mem::size_of::<T>()`, carried here as
`elem_size`. -/
structure SharedMemory where
  latest_location : DeviceType
  latest_copy : MemoryType
  copies : LinMap
  cap : Nat
  elem_size : Nat
deriving DecidableEq

/-- Mirrors `Self::mem_size(capacity)`: `mem::size_of::<T>() * capacity`.
The multiplication is on `usize`; on the 64-bit targets the product wraps
modulo `2 ^ 64` on overflow (release-build semantics), so the wrap is
explicit here. -/
def mem_size (elem_size capacity : Nat) : Nat := (elem_size * capacity) % 2 ^ 64

/-- Per-kind allocation used by `new` and `add_device`: the `match *dev`
block that wraps the backend allocator's result in the matching
`MemoryType` variant, or wraps the failure as `MemoryAllocationError`. -/
def alloc_on_device (b : Backend) (dev : DeviceType) (size : Nat) : Except Error MemoryType :=
  match dev with
  | .native cpu =>
      match b.allocNative cpu size with
      | some bytes => .ok (.native bytes)
      | none => .error .MemoryAllocationError
  | .opencl ctx =>
      match b.allocOpenCL ctx size with
      | some sz => .ok (.opencl sz)
      | none => .error .MemoryAllocationError

/-- Mirrors `SharedMemory::new(dev, capacity)`. -/
def SharedMemory.new (b : Backend) (es : Nat) (dev : DeviceType) (capacity : Nat) :
    Except Error SharedMemory :=
  let copies : LinMap := []
  let alloc_size := mem_size es capacity
  match alloc_on_device b dev alloc_size with
  | .error e => .error e
  | .ok copy =>
      .ok { latest_location := dev, latest_copy := copy, copies := copies,
            cap := capacity, elem_size := es }

/-- Mirrors `SharedMemory::capacity`. -/
def SharedMemory.capacity (s : SharedMemory) : Nat := s.cap

/-- Mirrors `SharedMemory::latest_device`. -/
def SharedMemory.latest_device (s : SharedMemory) : DeviceType := s.latest_location

/-- Mirrors `SharedMemory::get`. -/
def SharedMemory.get (s : SharedMemory) (device : DeviceType) : Option MemoryType :=
  if s.latest_location = device then some s.latest_copy
  else lmGet s.copies device

/-- Mirrors `SharedMemory::get_mut` as a lookup: the device whose copy the
returned mutable reference designates. -/
def SharedMemory.get_mut (s : SharedMemory) (device : DeviceType) : Option MemoryType :=
  if s.latest_location = device then some s.latest_copy
  else lmGet s.copies device

/-- Effect of writing through the mutable reference returned by
`get_mut`: the designated copy is replaced by `m`; `none` when `get_mut`
returns `None` and no write is possible. -/
def SharedMemory.get_mut_write (s : SharedMemory) (device : DeviceType) (m : MemoryType) :
    Option SharedMemory :=
  if s.latest_location = device then some { s with latest_copy := m }
  else
    match lmGet s.copies device with
    | some _ => some { s with copies := lmInsert s.copies device m }
    | none => none

/-- Mirrors `SharedMemory::aquire_copies`.  Note the Rust behaviour on the
missing-destination path: `self.copies.remove(source)` has already
succeeded and its mutation persists, so the returned state has the source
entry removed (and the removed value is dropped by the early return). -/
def SharedMemory.aquire_copies (s : SharedMemory) (source destination : DeviceType) :
    SharedMemory × Except Error (MemoryType × MemoryType) :=
  match lmRemove s.copies source with
  | (none, _) => (s, .error (.MissingSource msg_missing_source))
  | (some source_copy, copies1) =>
      match lmRemove copies1 destination with
      | (none, _) => ({ s with copies := copies1 }, .error (.MissingDestination msg_missing_destination))
      | (some destination_copy, copies2) =>
          ({ s with copies := copies2 }, .ok (source_copy, destination_copy))

/-- Mirrors `SharedMemory::return_copies`. -/
def SharedMemory.return_copies (s : SharedMemory) (src : DeviceType) (src_mem : MemoryType)
    (dest : DeviceType) (dest_mem : MemoryType) : SharedMemory :=
  { s with copies := lmInsert (lmInsert s.copies src src_mem) dest dest_mem }

/-- Mirrors `SharedMemory::sync_from_to`.  The third component counts
backend transfer (`sync_in`) invocations.  The OpenCL destination arm is
the Rust `unimplemented` panic; the early error returns reproduce the
Rust drops: the acquired copies are not reinserted. -/
def SharedMemory.sync_from_to (b : Backend) (s : SharedMemory) (source destination : DeviceType) :
    SharedMemory × Outcome Unit × Nat :=
  if source ≠ destination then
    match s.aquire_copies source destination with
    | (s1, .error err) => (s1, .err err, 0)
    | (s1, .ok (source_copy, destination_copy)) =>
        match destination with
        | .native cpu =>
            match destination_copy with
            | .native dest_bytes =>
                match b.syncInNative cpu source source_copy dest_bytes with
                | some new_bytes =>
                    (s1.return_copies source source_copy destination (.native new_bytes), .ok (), 1)
                | none => (s1, .err .MemorySynchronizationError, 1)
            | _ => (s1, .err (.InvalidMemory msg_invalid_native), 0)
        | .opencl _ => (s1, .panicked msg_unimplemented, 0)
  else (s, .ok (), 0)

/-- Mirrors `SharedMemory::sync`.  Note the Rust assignment order: after
`sync_from_to` succeeds, `latest_location` is assigned *before* the
`copies.remove(destination)` lookup whose failure would be
`MissingDestination`. -/
def SharedMemory.sync (b : Backend) (s : SharedMemory) (destination : DeviceType) :
    SharedMemory × Outcome Unit × Nat :=
  if s.latest_location ≠ destination then
    match SharedMemory.sync_from_to b s s.latest_location destination with
    | (s1, .ok _, n) =>
        match lmRemove s1.copies destination with
        | (some c, copies2) =>
            ({ s1 with latest_location := destination, latest_copy := c, copies := copies2 },
              .ok (), n)
        | (none, _) =>
            ({ s1 with latest_location := destination },
              .err (.MissingDestination msg_missing_destination), n)
    | (s1, .err e, n) => (s1, .err e, n)
    | (s1, .panicked m, n) => (s1, .panicked m, n)
  else (s, .ok (), 0)

/-- Mirrors `SharedMemory::add_device`. -/
def SharedMemory.add_device (b : Backend) (s : SharedMemory) (device : DeviceType) :
    SharedMemory × Except Error Unit :=
  if s.latest_location = device then
    (s, .error (.InvalidMemoryAllocation msg_double_alloc))
  else
    match lmGet s.copies device with
    | some _ => (s, .error (.InvalidMemoryAllocation msg_double_alloc))
    | none =>
        match alloc_on_device b device (mem_size s.elem_size s.capacity) with
        | .error e => (s, .error e)
        | .ok copy => ({ s with copies := lmInsert s.copies device copy }, .ok ())

/-- Tracker states reachable from construction through the public
operations (`get` does not mutate; `get_mut` mutation is
`get_mut_write`).  The backend is fixed along the run. -/
inductive Reachable (b : Backend) : SharedMemory → Prop where
  | of_new : ∀ es dev capacity s, SharedMemory.new b es dev capacity = .ok s → Reachable b s
  | of_add_device : ∀ s d, Reachable b s → Reachable b (SharedMemory.add_device b s d).1
  | of_get_mut_write : ∀ s d m s', Reachable b s → s.get_mut_write d m = some s' → Reachable b s'
  | of_sync : ∀ s d, Reachable b s → Reachable b (SharedMemory.sync b s d).1

/-! Concrete fixtures used to exercise the operations. -/

/-- A well-behaved concrete backend: allocations are zero-filled at the
requested size; a native transfer copies the source bytes when the source
is native and fails otherwise. -/
def stubBackend : Backend where
  allocNative := fun _ sz => some (List.replicate sz 0)
  allocOpenCL := fun _ sz => some sz
  syncInNative := fun _ _ src _ =>
    match src with
    | .native bs => some bs
    | .opencl _ => none

/-- A backend whose native transfer always fails (a backend-reported
transfer failure). -/
def failBackend : Backend where
  allocNative := fun _ sz => some (List.replicate sz 0)
  allocOpenCL := fun _ sz => some sz
  syncInNative := fun _ _ _ _ => none

def devA : DeviceType := .native 0

def devB : DeviceType := .native 1

def devC : DeviceType := .native 2

/-- Tracker produced by `new stubBackend 4 devA 5`: device A, capacity 5,
4-byte elements, a 20-byte zeroed authoritative copy. -/
def s_A : SharedMemory :=
  { latest_location := devA, latest_copy := .native (List.replicate 20 0),
    copies := [], cap := 5, elem_size := 4 }

/-- `s_A` after `add_device devB`. -/
def s_B : SharedMemory :=
  { latest_location := devA, latest_copy := .native (List.replicate 20 0),
    copies := [(devB, .native (List.replicate 20 0))], cap := 5, elem_size := 4 }

/-- The 20 bytes of the `i32` pattern `[0, 1, 2, 3, 4]` (little endian). -/
def pattern_bytes : List Nat :=
  [0, 0, 0, 0, 1, 0, 0, 0, 2, 0, 0, 0, 3, 0, 0, 0, 4, 0, 0, 0]

def pattern_mem : MemoryType := .native pattern_bytes

/-- `s_B` after writing the pattern into device A's copy via `get_mut`. -/
def s_P : SharedMemory :=
  { latest_location := devA, latest_copy := pattern_mem,
    copies := [(devB, .native (List.replicate 20 0))], cap := 5, elem_size := 4 }

/-- Fixture for C5: a tracker holding copies for `native 1` and `native 2`
(authoritative on `native 0`). -/
def s_5 : SharedMemory :=
  { latest_location := devA, latest_copy := .native (List.replicate 8 0),
    copies := [(devB, .native [1, 2, 3, 4]), (devC, .native [5, 6, 7, 8])],
    cap := 2, elem_size := 4 }

/-- Fixture for C9: a tracker with copies on `native 0` and `opencl 7`,
authoritative elsewhere. -/
def s_9 : SharedMemory :=
  { latest_location := .native 5, latest_copy := .native (List.replicate 4 0),
    copies := [(devA, .native [9, 9, 9, 9]), (.opencl 7, .opencl 4)],
    cap := 1, elem_size := 4 }

/-- Tracker produced by `new stubBackend 4 devA (2 ^ 62)`: the requested
byte size `4 * 2 ^ 62` wraps to 0 in the usize multiplication, so the
authoritative copy is 0 bytes while the capacity reports `2 ^ 62`. -/
def s_over : SharedMemory :=
  { latest_location := devA, latest_copy := .native [], copies := [],
    cap := 2 ^ 62, elem_size := 4 }

/-! Lemmas about the association-list operations. -/

theorem lmGet_lmInsert_self (m : LinMap) (k : DeviceType) (v : MemoryType) :
    lmGet (lmInsert m k v) k = some v := by
  induction m with
  | nil => simp [lmInsert, lmGet]
  | cons p rest ih =>
      obtain ⟨k', v'⟩ := p
      by_cases h : k' = k
      · simp [lmInsert, h, lmGet]
      · simp [lmInsert, h, lmGet, ih]

theorem lmGet_lmInsert_ne (m : LinMap) (k : DeviceType) (v : MemoryType) (k' : DeviceType)
    (h : k' ≠ k) : lmGet (lmInsert m k v) k' = lmGet m k' := by
  have h' : ¬k = k' := fun hk => h hk.symm
  induction m with
  | nil => simp [lmInsert, lmGet, h']
  | cons p rest ih =>
      obtain ⟨k0, v0⟩ := p
      by_cases hk : k0 = k
      · subst hk
        simp [lmInsert, lmGet, h']
      · by_cases hk' : k0 = k'
        · simp [lmInsert, hk, lmGet, hk', h]
        · simp [lmInsert, hk, lmGet, hk', ih]

theorem lmRemove_fst (m : LinMap) (k : DeviceType) : (lmRemove m k).1 = lmGet m k := by
  induction m with
  | nil => simp [lmRemove, lmGet]
  | cons p rest ih =>
      obtain ⟨k', v'⟩ := p
      by_cases h : k' = k
      · simp [lmRemove, h, lmGet]
      · simp [lmRemove, h, lmGet, ih]

theorem lmRemove_none (m : LinMap) (k : DeviceType) (h : lmGet m k = none) :
    lmRemove m k = (none, m) := by
  induction m with
  | nil => simp [lmRemove]
  | cons p rest ih =>
      obtain ⟨k', v'⟩ := p
      by_cases hk : k' = k
      · simp [lmGet, hk] at h
      · simp [lmGet, hk] at h
        simp [lmRemove, hk, ih h]

/-! Frame and shape lemmas about the tracker operations. -/

/-- The acquire step never touches the authoritative fields, the capacity
or the element size. -/
theorem aquire_copies_fields (s : SharedMemory) (source destination : DeviceType) :
    ((s.aquire_copies source destination).1).latest_location = s.latest_location ∧
    ((s.aquire_copies source destination).1).latest_copy = s.latest_copy ∧
    ((s.aquire_copies source destination).1).cap = s.cap ∧
    ((s.aquire_copies source destination).1).elem_size = s.elem_size := by
  unfold SharedMemory.aquire_copies
  split
  · exact ⟨rfl, rfl, rfl, rfl⟩
  · split
    · exact ⟨rfl, rfl, rfl, rfl⟩
    · exact ⟨rfl, rfl, rfl, rfl⟩

/-- `sync_from_to` never touches the authoritative fields, the capacity or
the element size, whatever its outcome. -/
theorem sync_from_to_fields (b : Backend) (s : SharedMemory) (source destination : DeviceType) :
    ((SharedMemory.sync_from_to b s source destination).1).latest_location = s.latest_location ∧
    ((SharedMemory.sync_from_to b s source destination).1).latest_copy = s.latest_copy ∧
    ((SharedMemory.sync_from_to b s source destination).1).cap = s.cap ∧
    ((SharedMemory.sync_from_to b s source destination).1).elem_size = s.elem_size := by
  unfold SharedMemory.sync_from_to
  split
  · split
    next s1 err heq =>
      have h := aquire_copies_fields s source destination
      rw [heq] at h
      exact h
    next s1 source_copy destination_copy heq =>
      have h := aquire_copies_fields s source destination
      rw [heq] at h
      split
      · split
        · split
          · exact h
          · exact h
        · exact h
      · exact h
  · exact ⟨rfl, rfl, rfl, rfl⟩

/-- After a successful non-trivial `sync_from_to`, the destination's copy
is present in `copies` (it was just reinserted by `return_copies`). -/
theorem sync_from_to_ok_dest (b : Backend) (s : SharedMemory) (source destination : DeviceType)
    (s1 : SharedMemory) (u : Unit) (n : Nat) (hne : source ≠ destination)
    (h : SharedMemory.sync_from_to b s source destination = (s1, Outcome.ok u, n)) :
    lmGet s1.copies destination ≠ none := by
  unfold SharedMemory.sync_from_to at h
  rw [if_pos hne] at h
  split at h
  · simp at h
  · split at h
    · split at h
      · split at h
        · simp only [Prod.mk.injEq] at h
          obtain ⟨hs, -, -⟩ := h
          subst hs
          simp [SharedMemory.return_copies, lmGet_lmInsert_self]
        · simp at h
      · simp at h
    · simp at h

/-- If the tracker does not hold a `copies` entry for its own
authoritative device, `sync` is the identity on the state: a no-op for
the authoritative destination and a `MissingSource` failure for every
other destination (the source lookup probes `copies` only). -/
theorem sync_of_no_latest_copy (b : Backend) (s : SharedMemory) (d : DeviceType)
    (h : lmGet s.copies s.latest_location = none) :
    SharedMemory.sync b s d =
      if s.latest_location = d then (s, Outcome.ok (), 0)
      else (s, Outcome.err (Error.MissingSource msg_missing_source), 0) := by
  by_cases hd : s.latest_location = d
  · simp [SharedMemory.sync, hd]
  · have hrem : lmRemove s.copies s.latest_location = (none, s.copies) := lmRemove_none _ _ h
    simp [SharedMemory.sync, hd, SharedMemory.sync_from_to, SharedMemory.aquire_copies, hrem]

/-- Shape of a successful `add_device`. -/
theorem add_device_ok_shape (b : Backend) (s : SharedMemory) (d : DeviceType)
    (s' : SharedMemory) (h : SharedMemory.add_device b s d = (s', Except.ok ())) :
    s.latest_location ≠ d ∧ lmGet s.copies d = none ∧
    ∃ c, alloc_on_device b d (mem_size s.elem_size s.capacity) = Except.ok c ∧
      s' = { s with copies := lmInsert s.copies d c } := by
  unfold SharedMemory.add_device at h
  split at h
  · simp at h
  next hlat =>
    split at h
    · simp at h
    next hnone =>
      split at h
      · simp at h
      next c hc =>
        simp only [Prod.mk.injEq] at h
        exact ⟨hlat, hnone, c, hc, h.1.symm⟩

/-- With an honest backend, `alloc_on_device` returns a copy of exactly
the requested byte size. -/
theorem alloc_on_device_size (b : Backend) (hb : Backend.honest b) (dev : DeviceType)
    (sz : Nat) (c : MemoryType) (h : alloc_on_device b dev sz = Except.ok c) :
    c.byte_size = sz := by
  cases dev with
  | native cpu =>
      cases hal : b.allocNative cpu sz with
      | none => simp [alloc_on_device, hal] at h
      | some bytes =>
          simp only [alloc_on_device, hal, Except.ok.injEq] at h
          subst h
          exact hb.1 cpu sz bytes hal
  | opencl ctx =>
      cases hal : b.allocOpenCL ctx sz with
      | none => simp [alloc_on_device, hal] at h
      | some n =>
          simp only [alloc_on_device, hal, Except.ok.injEq] at h
          subst h
          exact hb.2 ctx sz n hal

/-- The stub backend honours the allocation-size contract. -/
theorem stubBackend_honest : Backend.honest stubBackend := by
  constructor
  · intro id sz l h
    simp only [stubBackend] at h
    cases h
    simp
  · intro id sz n h
    simp only [stubBackend] at h
    cases h
    rfl

/-- In every reachable tracker state, `copies` has no entry for the
authoritative device. -/
theorem reachable_no_latest_in_copies (b : Backend) (s : SharedMemory) (h : Reachable b s) :
    lmGet s.copies s.latest_location = none := by
  induction h with
  | of_new es dev capacity s hnew =>
      simp only [SharedMemory.new] at hnew
      split at hnew
      · exact absurd hnew (by simp)
      · cases hnew
        rfl
  | of_add_device s d hr ih =>
      unfold SharedMemory.add_device
      split
      · simpa using ih
      next hlat =>
        split
        · simpa using ih
        · split
          · simpa using ih
          · simpa [lmGet_lmInsert_ne _ _ _ _ hlat] using ih
  | of_get_mut_write s d m s' hr hw ih =>
      simp only [SharedMemory.get_mut_write] at hw
      split at hw
      next heq =>
        cases hw
        simpa using ih
      next hne =>
        split at hw
        next v hv =>
          cases hw
          simpa [lmGet_lmInsert_ne _ _ _ _ hne] using ih
        next => cases hw
  | of_sync s d hr ih =>
      rw [sync_of_no_latest_copy b s d ih]
      split
      · simpa using ih
      · simpa using ih

/-! Claim theorems. -/

/-- C1: the spec scenario — tracker on device A (capacity 5, 4-byte
elements), `add_device B`, the pattern written into A's copy via
`get_mut A`, then `synchronize B` — does not behave as claimed: the sync
returns `MissingSource` (the source is looked up in `copies`, which never
holds the authoritative device's copy), the authoritative device stays A,
and B's copy still holds the zeroed allocation rather than the pattern. -/
theorem C1_scenario_sync_fails :
    SharedMemory.new stubBackend 4 devA 5 = Except.ok s_A ∧
    SharedMemory.add_device stubBackend s_A devB = (s_B, Except.ok ()) ∧
    s_B.get_mut_write devA pattern_mem = some s_P ∧
    SharedMemory.sync stubBackend s_P devB =
      (s_P, Outcome.err (Error.MissingSource msg_missing_source), 0) ∧
    s_P.latest_device = devA ∧
    s_P.get devB = some (MemoryType.native (List.replicate 20 0)) :=
  ⟨rfl, rfl, rfl, rfl, rfl, rfl⟩

/-- C2: on a tracker holding only device A, `synchronize B` does return an
error and leaves the authoritative device unchanged, but the error is
`MissingSource`, not the claimed `MissingDestination`: `aquire_copies`
fails on the source lookup before the destination is ever checked. -/
theorem C2_sync_only_auth_device :
    SharedMemory.new stubBackend 4 devA 5 = Except.ok s_A ∧
    SharedMemory.sync stubBackend s_A devB =
      (s_A, Outcome.err (Error.MissingSource msg_missing_source), 0) ∧
    (SharedMemory.sync stubBackend s_A devB).1.latest_device = devA :=
  ⟨rfl, rfl, rfl⟩

/-- C3: at the concrete state where the spec requires `synchronize B` to
succeed and promote B (B tracked, pattern written on A), the call instead
returns `MissingSource` and performs no demotion or promotion: the
authoritative device is still A afterwards and A has no entry in
`copies`.  The success path of `sync` with a distinct destination is
never taken by the code. -/
theorem C3_no_promotion_on_sync :
    SharedMemory.sync stubBackend s_P devB =
      (s_P, Outcome.err (Error.MissingSource msg_missing_source), 0) ∧
    (SharedMemory.sync stubBackend s_P devB).1.latest_location = devA ∧
    lmGet (SharedMemory.sync stubBackend s_P devB).1.copies devA = none ∧
    (SharedMemory.sync stubBackend s_P devB).1.latest_copy = pattern_mem :=
  ⟨rfl, rfl, rfl, rfl⟩

/-- C5: when the backend transfer fails inside the synchronization step
`sync_from_to (native 1 → native 2)`, the two copies acquired by
`aquire_copies` are *not* returned to the tracker: the error propagates
with `copies` left empty, and both previously tracked copies are gone
(the early `try!` return drops them instead of calling
`return_copies`). -/
theorem C5_transfer_failure_drops_copies :
    s_5.get devB = some (MemoryType.native [1, 2, 3, 4]) ∧
    s_5.get devC = some (MemoryType.native [5, 6, 7, 8]) ∧
    SharedMemory.sync_from_to failBackend s_5 devB devC =
      ({ s_5 with copies := [] }, Outcome.err Error.MemorySynchronizationError, 1) ∧
    ({ s_5 with copies := [] }).get devB = none ∧
    ({ s_5 with copies := [] }).get devC = none :=
  ⟨rfl, rfl, rfl, rfl, rfl⟩

/-- C9: a synchronization whose destination is an OpenCL device hits the
Rust `unimplemented` panic instead of returning a wrapped device-level
transfer error: the outcome is a panic, not an error value (and the two
acquired copies are dropped on the way). -/
theorem C9_opencl_destination_panics :
    SharedMemory.sync_from_to stubBackend s_9 devA (DeviceType.opencl 7) =
      ({ s_9 with copies := [] }, Outcome.panicked msg_unimplemented, 0) :=
  rfl

/-- C4: synchronizing to the current authoritative device is a no-op:
`sync` returns success, leaves the state untouched and performs zero
backend transfers, for every backend and every state; and from any
reachable state, a second `sync` to the same destination reports the same
authoritative device as the first and performs no transfer. -/
theorem C4_sync_noop_idempotent (b : Backend) (s : SharedMemory) (d : DeviceType)
    (hs : Reachable b s) :
    (d = s.latest_location → SharedMemory.sync b s d = (s, Outcome.ok (), 0)) ∧
    (SharedMemory.sync b (SharedMemory.sync b s d).1 d).1.latest_device =
      (SharedMemory.sync b s d).1.latest_device ∧
    (SharedMemory.sync b (SharedMemory.sync b s d).1 d).2.2 = 0 := by
  have hinv := reachable_no_latest_in_copies b s hs
  have hfix := sync_of_no_latest_copy b s d hinv
  have h1 : (SharedMemory.sync b s d).1 = s := by
    rw [hfix]; split <;> rfl
  refine ⟨?_, ?_, ?_⟩
  · intro hd
    rw [hfix, if_pos hd.symm]
  · simp [h1]
  · rw [h1, hfix]; split <;> rfl

/-- Witness for C4 at a concrete reachable tracker. -/
theorem C4_witness :
    (devA = s_A.latest_location →
      SharedMemory.sync stubBackend s_A devA = (s_A, Outcome.ok (), 0)) ∧
    (SharedMemory.sync stubBackend (SharedMemory.sync stubBackend s_A devA).1 devA).1.latest_device =
      (SharedMemory.sync stubBackend s_A devA).1.latest_device ∧
    (SharedMemory.sync stubBackend (SharedMemory.sync stubBackend s_A devA).1 devA).2.2 = 0 :=
  C4_sync_noop_idempotent stubBackend s_A devA (Reachable.of_new 4 devA 5 s_A rfl)

/-- C6: `add_device` fails with the double-allocation error whenever the
device is already tracked (authoritative or in `copies`), so a second
`add_device` right after a successful one fails; on an untracked device
it inserts exactly the fresh allocation of the fixed byte size, leaving
the authoritative fields alone (in particular the new copy's content is
the backend's allocation default, not synchronized from anywhere). -/
theorem C6_add_device_registration (b : Backend) (s : SharedMemory) (d : DeviceType) :
    ((d = s.latest_location ∨ (lmGet s.copies d).isSome = true) →
      SharedMemory.add_device b s d =
        (s, Except.error (Error.InvalidMemoryAllocation msg_double_alloc))) ∧
    ((SharedMemory.add_device b s d).2 = Except.ok () →
      (SharedMemory.add_device b (SharedMemory.add_device b s d).1 d).2 =
        Except.error (Error.InvalidMemoryAllocation msg_double_alloc)) ∧
    (∀ s', SharedMemory.add_device b s d = (s', Except.ok ()) →
      s'.latest_location = s.latest_location ∧ s'.latest_copy = s.latest_copy ∧
      s'.capacity = s.capacity ∧
      ∃ c, alloc_on_device b d (mem_size s.elem_size s.capacity) = Except.ok c ∧
        s'.copies = lmInsert s.copies d c ∧
        (Backend.honest b → c.byte_size = mem_size s.elem_size s.capacity)) := by
  refine ⟨?_, ?_, ?_⟩
  · rintro (hd | hsome)
    · unfold SharedMemory.add_device
      rw [if_pos hd.symm]
    · by_cases hd : s.latest_location = d
      · unfold SharedMemory.add_device
        rw [if_pos hd]
      · obtain ⟨v, hv⟩ := Option.isSome_iff_exists.mp hsome
        simp [SharedMemory.add_device, hd, hv]
  · intro h2
    rcases hadd : SharedMemory.add_device b s d with ⟨s', r⟩
    rw [hadd] at h2
    simp only at h2
    subst h2
    obtain ⟨hne, -, c, -, hs'⟩ := add_device_ok_shape b s d s' hadd
    subst hs'
    simp [SharedMemory.add_device, hne, lmGet_lmInsert_self]
  · intro s' h
    obtain ⟨hne, hnone, c, hc, hs'⟩ := add_device_ok_shape b s d s' h
    subst hs'
    refine ⟨rfl, rfl, rfl, c, hc, rfl, fun hb => ?_⟩
    exact alloc_on_device_size b hb d (mem_size s.elem_size s.capacity) c hc

/-- Witness for C6: the three parts at concrete trackers — `add_device`
of the authoritative device fails; `add_device devB` twice fails on the
second call; a successful `add_device devB` inserts the fresh 20-byte
allocation. -/
theorem C6_witness :
    SharedMemory.add_device stubBackend s_A devA =
      (s_A, Except.error (Error.InvalidMemoryAllocation msg_double_alloc)) ∧
    (SharedMemory.add_device stubBackend (SharedMemory.add_device stubBackend s_A devB).1 devB).2 =
      Except.error (Error.InvalidMemoryAllocation msg_double_alloc) ∧
    (s_B.latest_location = s_A.latest_location ∧ s_B.latest_copy = s_A.latest_copy ∧
      s_B.capacity = s_A.capacity ∧
      ∃ c, alloc_on_device stubBackend devB (mem_size s_A.elem_size s_A.capacity) = Except.ok c ∧
        s_B.copies = lmInsert s_A.copies devB c ∧
        (Backend.honest stubBackend → c.byte_size = mem_size s_A.elem_size s_A.capacity)) :=
  ⟨(C6_add_device_registration stubBackend s_A devA).1 (Or.inl rfl),
   (C6_add_device_registration stubBackend s_A devB).2.1 rfl,
   (C6_add_device_registration stubBackend s_A devB).2.2 s_B rfl⟩

/-- C7: in every reachable state a device is tracked (has a copy, i.e.
`get` succeeds) exactly when it is the authoritative device or has an
entry in `copies`, and never both: `copies` never holds an entry for the
authoritative device. -/
theorem C7_tracked_partition (b : Backend) (s : SharedMemory) (hs : Reachable b s) :
    lmGet s.copies s.latest_location = none ∧
    ∀ d, ((s.get d).isSome = true ↔
        (d = s.latest_location ∨ (lmGet s.copies d).isSome = true)) ∧
      ¬(d = s.latest_location ∧ (lmGet s.copies d).isSome = true) := by
  have hinv := reachable_no_latest_in_copies b s hs
  refine ⟨hinv, fun d => ⟨?_, ?_⟩⟩
  · by_cases hd : s.latest_location = d
    · subst hd
      simp [SharedMemory.get]
    · have hd' : ¬d = s.latest_location := fun hc => hd hc.symm
      simp [SharedMemory.get, hd, hd']
  · rintro ⟨hd, hsome⟩
    subst hd
    rw [hinv] at hsome
    simp at hsome

/-- Witness for C7 at a concrete reachable two-device tracker. -/
theorem C7_witness :
    lmGet s_B.copies s_B.latest_location = none ∧
    (((s_B.get devB).isSome = true ↔
        (devB = s_B.latest_location ∨ (lmGet s_B.copies devB).isSome = true)) ∧
      ¬(devB = s_B.latest_location ∧ (lmGet s_B.copies devB).isSome = true)) := by
  have h := C7_tracked_partition stubBackend s_B
    (Reachable.of_add_device s_A devB (Reachable.of_new 4 devA 5 s_A rfl))
  exact ⟨h.1, h.2 devB⟩

/-- C8 counterexample: at element size 4 and capacity `2 ^ 62` the usize
multiplication `mem::size_of::<T>() * capacity` wraps to 0, so
construction allocates a 0-byte authoritative copy while `capacity`
reports `2 ^ 62`: the allocated byte size is not `n * s`. -/
theorem C8_counterexample_overflow :
    SharedMemory.new stubBackend 4 devA (2 ^ 62) = Except.ok s_over ∧
    s_over.capacity = 2 ^ 62 ∧
    s_over.latest_copy.byte_size = 0 ∧
    ¬s_over.latest_copy.byte_size = 2 ^ 62 * 4 :=
  ⟨rfl, rfl, rfl, by decide⟩

/-- C8 (amended): with a backend honouring the allocation contract, and
whenever the product `element size * capacity` fits in usize (is below
`2 ^ 64`), every copy the tracker allocates — at construction and in
`add_device` — has byte size exactly that product; and, with no fitting
hypothesis at all, the value of `capacity` is fixed at construction and
preserved by `add_device`, `sync` and `get_mut` writes. -/
theorem C8_alloc_sizes_no_overflow (b : Backend) (hb : Backend.honest b) :
    (∀ es dev n s, es * n < 2 ^ 64 → SharedMemory.new b es dev n = Except.ok s →
      s.latest_copy.byte_size = es * n ∧ s.capacity = n ∧ s.elem_size = es) ∧
    (∀ s d s', s.elem_size * s.capacity < 2 ^ 64 →
      SharedMemory.add_device b s d = (s', Except.ok ()) →
      ∃ c, lmGet s'.copies d = some c ∧ c.byte_size = s.elem_size * s.capacity) ∧
    (∀ s d, (SharedMemory.add_device b s d).1.capacity = s.capacity) ∧
    (∀ s d, (SharedMemory.sync b s d).1.capacity = s.capacity) ∧
    (∀ (s : SharedMemory) (d : DeviceType) (m : MemoryType) (s' : SharedMemory),
      s.get_mut_write d m = some s' → s'.capacity = s.capacity) := by
  refine ⟨?_, ?_, ?_, ?_, ?_⟩
  · intro es dev n s hlt hnew
    simp only [SharedMemory.new] at hnew
    split at hnew
    · exact absurd hnew (by simp)
    next c hc =>
      cases hnew
      refine ⟨?_, rfl, rfl⟩
      rw [alloc_on_device_size b hb dev (mem_size es n) c hc]
      simp only [mem_size]
      exact Nat.mod_eq_of_lt hlt
  · intro s d s' hlt h
    obtain ⟨-, -, c, hc, hs'⟩ := add_device_ok_shape b s d s' h
    subst hs'
    refine ⟨c, lmGet_lmInsert_self _ _ _, ?_⟩
    rw [alloc_on_device_size b hb d (mem_size s.elem_size s.capacity) c hc]
    simp only [mem_size]
    exact Nat.mod_eq_of_lt hlt
  · intro s d
    unfold SharedMemory.add_device
    split
    · rfl
    · split
      · rfl
      · split
        · rfl
        · rfl
  · intro s d
    unfold SharedMemory.sync
    split
    · split
      next s1 u n heq =>
        have h := sync_from_to_fields b s s.latest_location d
        rw [heq] at h
        split
        · exact h.2.2.1
        · exact h.2.2.1
      next s1 e n heq =>
        have h := sync_from_to_fields b s s.latest_location d
        rw [heq] at h
        exact h.2.2.1
      next s1 m n heq =>
        have h := sync_from_to_fields b s s.latest_location d
        rw [heq] at h
        exact h.2.2.1
    · rfl
  · intro s d m s' h
    simp only [SharedMemory.get_mut_write] at h
    split at h
    · cases h; rfl
    · split at h
      · cases h; rfl
      · cases h

/-- Witness for C8 at the concrete stub backend and trackers. -/
theorem C8_witness :
    (s_A.latest_copy.byte_size = 4 * 5 ∧ s_A.capacity = 5 ∧ s_A.elem_size = 4) ∧
    (∃ c, lmGet s_B.copies devB = some c ∧
      c.byte_size = s_A.elem_size * s_A.capacity) ∧
    (SharedMemory.add_device stubBackend s_A devB).1.capacity = s_A.capacity ∧
    (SharedMemory.sync stubBackend s_A devB).1.capacity = s_A.capacity ∧
    s_P.capacity = s_B.capacity :=
  ⟨(C8_alloc_sizes_no_overflow stubBackend stubBackend_honest).1 4 devA 5 s_A (by decide) rfl,
   (C8_alloc_sizes_no_overflow stubBackend stubBackend_honest).2.1 s_A devB s_B (by decide) rfl,
   (C8_alloc_sizes_no_overflow stubBackend stubBackend_honest).2.2.1 s_A devB,
   (C8_alloc_sizes_no_overflow stubBackend stubBackend_honest).2.2.2.1 s_A devB,
   (C8_alloc_sizes_no_overflow stubBackend stubBackend_honest).2.2.2.2 s_B devA pattern_mem s_P rfl⟩

/-- C10: whenever `sync` returns an error — for any backend, any state
and any destination — the authoritative bookkeeping is untouched: the
resulting state has the same `latest_location`, the same `latest_copy`,
and `latest_device` reports the same device as before the call. -/
theorem C10_sync_error_frame (b : Backend) (s : SharedMemory) (d : DeviceType)
    (s' : SharedMemory) (e : Error) (n : Nat)
    (h : SharedMemory.sync b s d = (s', Outcome.err e, n)) :
    s'.latest_location = s.latest_location ∧ s'.latest_copy = s.latest_copy ∧
    s'.latest_device = s.latest_device := by
  unfold SharedMemory.sync at h
  split at h
  next hne =>
    split at h
    next s1 u n1 heq =>
      split at h
      next => simp at h
      next heq2 =>
        exfalso
        have hd := sync_from_to_ok_dest b s s.latest_location d s1 u n1 hne heq
        have hfst := lmRemove_fst s1.copies d
        rw [heq2] at hfst
        exact hd hfst.symm
    next s1 e1 n1 heq =>
      have hf := sync_from_to_fields b s s.latest_location d
      rw [heq] at hf
      simp only [Prod.mk.injEq] at h
      obtain ⟨hs, -, -⟩ := h
      subst hs
      exact ⟨hf.1, hf.2.1, hf.1⟩
    next s1 m n1 heq => simp at h
  next => simp at h

/-- Witness for C10 at a concrete failing `sync`. -/
theorem C10_witness :
    s_A.latest_location = s_A.latest_location ∧ s_A.latest_copy = s_A.latest_copy ∧
    s_A.latest_device = s_A.latest_device :=
  C10_sync_error_frame stubBackend s_A devB s_A (Error.MissingSource msg_missing_source) 0 rfl

end Collenchyma
